import Mathlib

/-!
Shallow embedding of `src/ec2-benchmarks/generate_reports.py`.

The script reads a JSON file of benchmark measurements, renders a markdown
summary (`generate_summary_markdown`, lines 8-39) and up to two charts
(`generate_plots`, lines 41-227; lines 228-413 are a duplicate, unreachable
copy of the same body after the `return True` on line 227), and maps the
outcome to a process exit code (`__main__`, lines 415-422).

Modelling conventions:
- Python floats are modelled as exact rationals (`ℚ`).
- Python dicts (which preserve insertion order) are modelled as association
  lists `List (String × _)`; `dictLookup` models `d[k]` / `k in d`.
- `np.std(xs, ddof=1)` is the nonnegative square root of the sample variance;
  since the square root of a rational is generally irrational, the embedded
  statistics record carries the variance (`Stat3.stdSq`), and the legend
  functions take the deviation value itself.  The branch `std > 0` in the
  source is equivalent to `stdSq > 0` because the square root is positive
  exactly on positive arguments.
- A raised, uncaught Python exception is modelled as `Except.error`; the
  interpreter then terminates the process with a nonzero exit status.
- Filesystem reads and the JSON parser are external collaborators, modelled
  as explicit function parameters `fs : String → Option String` and
  `parse : String → Option Record`.
-/

/-- Per-suite entry of the `raw_data` mapping: each of the two per-trial
sequences is optional (`'proving_times' in raw_data[suite]` etc.). -/
structure RawEntry where
  proving_times : Option (List ℚ)
  gas_costs : Option (List ℚ)

/-- The parsed benchmark record (lines 10-15 and 58-62).  Metadata fields are
stored as the strings the renderer interpolates, with the `data.get` defaults
(`'Unknown'`, `'N/A'`) applied; metric mappings default to empty. -/
structure Record where
  instance_type : String := "Unknown"
  cpu_cores : String := "N/A"
  memory_gb : String := "N/A"
  timestamp : String := "N/A"
  proving_times : List (String × ℚ) := []
  verification_times : List (String × ℚ) := []
  gas_costs : List (String × ℚ) := []
  raw_data : List (String × RawEntry) := []

/-- Lookup in an insertion-ordered dict model; `dictLookup k d` is `d.get(k)`;
`(dictLookup k d).isSome` is `k in d`. -/
def dictLookup {β : Type} (s : String) : List (String × β) → Option β
  | [] => none
  | (k, v) :: rest => if s = k then some v else dictLookup s rest

/-- Decimal digit as a character. -/
def digitChar (n : ℕ) : Char :=
  if n = 0 then '0' else if n = 1 then '1' else if n = 2 then '2'
  else if n = 3 then '3' else if n = 4 then '4' else if n = 5 then '5'
  else if n = 6 then '6' else if n = 7 then '7' else if n = 8 then '8' else '9'

/-- Fuelled decimal digit expansion (most significant digit first). -/
def natToDigitsAux : ℕ → ℕ → List Char → List Char
  | 0, _, acc => acc
  | fuel + 1, n, acc =>
    if n < 10 then digitChar n :: acc
    else natToDigitsAux fuel (n / 10) (digitChar (n % 10) :: acc)

/-- Decimal representation of a natural number. -/
def natRepr (n : ℕ) : String := String.mk (natToDigitsAux (n + 1) n [])

/-- Insert a comma before every third character of a reversed digit list;
models the grouping of Python's thousands format specifier. -/
def commaRevAux : List Char → ℕ → List Char
  | [], _ => []
  | c :: cs, k =>
    if k % 3 = 0 ∧ k ≠ 0 then ',' :: c :: commaRevAux cs (k + 1)
    else c :: commaRevAux cs (k + 1)

/-- Python integer formatting with the thousands separator, as in the
format string on line 34. -/
def commaFmt (n : ℤ) : String :=
  (if n < 0 then "-" else "") ++
    String.mk ((commaRevAux (natToDigitsAux (n.natAbs + 1) n.natAbs []).reverse 0).reverse)

/-- Round to the nearest integer, ties to even, as Python's fixed-point
float formatting does. -/
def roundHalfEven (q : ℚ) : ℤ :=
  if q - (⌊q⌋ : ℚ) < 1 / 2 then ⌊q⌋
  else if 1 / 2 < q - (⌊q⌋ : ℚ) then ⌊q⌋ + 1
  else if ⌊q⌋ % 2 = 0 then ⌊q⌋ else ⌊q⌋ + 1

/-- Left-pad a string with zeros to the given length. -/
def padZeros (s : String) (d : ℕ) : String :=
  String.mk (List.replicate (d - s.length) '0') ++ s

/-- Python fixed-point formatting of a number with `d` digits after the
decimal point (format specifiers such as the ones on lines 32, 114, 197). -/
def fmtFixed (d : ℕ) (q : ℚ) : String :=
  (if q < 0 then "-" else "") ++
    natRepr ((roundHalfEven ((if q < 0 then -q else q) * (10 : ℚ) ^ d)).toNat / 10 ^ d) ++
    (if d = 0 then ""
     else
       "." ++
         padZeros
           (natRepr ((roundHalfEven ((if q < 0 then -q else q) * (10 : ℚ) ^ d)).toNat % 10 ^ d)) d)

/-- Python `int()` conversion: truncation toward zero (line 34). -/
def ratTrunc (q : ℚ) : ℤ := if q < 0 then -⌊-q⌋ else ⌊q⌋

/-- Header block of the markdown summary (lines 17-25). -/
def mdHeader (r : Record) : String :=
  "# ZK-SNARK ECDSA Benchmark Results\n\n**Instance:** " ++ r.instance_type ++
    "  \n**CPU Cores:** " ++ r.cpu_cores ++ "  \n**Memory:** " ++ r.memory_gb ++
    "GB  \n**Date:** " ++ r.timestamp ++ "\n\n## Performance Summary\n"

/-- Proving-time line of a suite subsection, present when the suite is a key
of `proving_times` (lines 31-32). -/
def mdPtPart : Option ℚ → String
  | some t => "- **Proving Time:** " ++ fmtFixed 3 t ++ "s\n"
  | none => ""

/-- Gas-cost line of a suite subsection, present when the suite is a key of
`gas_costs` (lines 33-34). -/
def mdGasPart : Option ℚ → String
  | some g => "- **Gas Cost:** " ++ commaFmt (ratTrunc g) ++ " gas\n"
  | none => ""

/-- One suite subsection of the markdown summary (lines 29-34). -/
def mdSection (r : Record) (s : String) : String :=
  "\n### " ++ s ++ "\n\n" ++ mdPtPart (dictLookup s r.proving_times) ++
    mdGasPart (dictLookup s r.gas_costs)

/-- Suite list of the markdown summary:
`sorted(list(set(list(proving_times.keys()) + list(gas_costs.keys()))))`
(line 27). -/
def mdSuites (r : Record) : List String :=
  List.insertionSort (· ≤ ·)
    ((r.proving_times.map Prod.fst ++ r.gas_costs.map Prod.fst).dedup)

/-- Text of the markdown summary document (lines 8-34; the write to
`performance_summary.md` on lines 36-38 stores exactly this string). -/
def generate_summary_markdown (r : Record) : String :=
  mdHeader r ++ String.join ((mdSuites r).map (mdSection r))

/-- Python `min` over a list; raises `ValueError` on an empty sequence. -/
def pyMin : List ℚ → Except String ℚ
  | [] => .error "ValueError: min() arg is an empty sequence"
  | x :: xs => .ok (xs.foldl min x)

/-- Python `max` over a list; raises `ValueError` on an empty sequence. -/
def pyMax : List ℚ → Except String ℚ
  | [] => .error "ValueError: max() arg is an empty sequence"
  | x :: xs => .ok (xs.foldl max x)

/-- Sum of a list of rationals. -/
def listSum (xs : List ℚ) : ℚ := xs.foldl (· + ·) 0

/-- Square of `np.std(xs, ddof=1)`: the sample variance with the n-1
denominator, deviations taken from the arithmetic mean of `xs`. -/
def sampleVar (xs : List ℚ) : ℚ :=
  listSum (xs.map (fun x => (x - listSum xs / (xs.length : ℚ)) ^ 2)) /
    ((xs.length : ℚ) - 1)

/-- Per-suite (min, max, stddev²) derived for one chart; `stdSq` is the
square of the `std_devs` entry of the source. -/
structure Stat3 where
  minV : ℚ
  maxV : ℚ
  stdSq : ℚ

/-- Proving-time statistics of one suite (lines 80-92).  When the suite has a
`raw_data` entry with a `proving_times` field, `min`/`max` are applied to it
with no emptiness guard, so an empty sequence raises `ValueError`; otherwise
all values degenerate to the supplied average. -/
def provingSuiteStat (avg : ℚ) (raw : Option RawEntry) : Except String Stat3 :=
  match raw with
  | some e =>
    match e.proving_times with
    | some xs => do
      let mn ← pyMin xs
      let mx ← pyMax xs
      pure ⟨mn, mx, if 1 < xs.length then sampleVar xs else 0⟩
    | none => pure ⟨avg, avg, 0⟩
  | none => pure ⟨avg, avg, 0⟩

/-- Gas-cost statistics of one suite (lines 153-174).  Unlike the
proving-time branch, an explicit guard (line 156) sends a present-but-empty
sequence to the degenerate average case. -/
def gasSuiteStat (avg : ℚ) (raw : Option RawEntry) : Stat3 :=
  match raw with
  | some e =>
    match e.gas_costs with
    | some (x :: xs) =>
      ⟨xs.foldl min x, xs.foldl max x,
        if 1 < (x :: xs).length then sampleVar (x :: xs) else 0⟩
    | some [] => ⟨avg, avg, 0⟩
    | none => ⟨avg, avg, 0⟩
  | none => ⟨avg, avg, 0⟩

/-- Proving-time statistics loop over the suites of `proving_times`
(lines 72-92); the first raised exception aborts the loop. -/
def provingStats (pt : List (String × ℚ)) (raw : List (String × RawEntry)) :
    Except String (List Stat3) :=
  pt.mapM (fun p => provingSuiteStat p.2 (dictLookup p.1 raw))

/-- Gas-cost statistics loop over the suites of `gas_costs`
(lines 145-174); total. -/
def gasStats (gc : List (String × ℚ)) (raw : List (String × RawEntry)) :
    List Stat3 :=
  gc.map (fun p => gasSuiteStat p.2 (dictLookup p.1 raw))

/-- Legend entry of the proving-time chart for one suite (lines 112-116);
`std` is the suite's `np.std` value. -/
def provingLegendLabel (suite : String) (std : ℚ) : String :=
  if 0 < std then suite ++ ": σ=" ++ fmtFixed 3 std ++ "s"
  else suite ++ ": single measurement"

/-- Legend entry of the gas chart for one suite (lines 195-199). -/
def gasLegendLabel (suite : String) (std : ℚ) : String :=
  if 0 < std then suite ++ ": σ=" ++ fmtFixed 2 std
  else suite ++ ": deterministic"

/-- Legend list of the proving-time chart (lines 111-116). -/
def provingLegend (suites : List String) (stds : List ℚ) : List String :=
  (suites.zip stds).map (fun p => provingLegendLabel p.1 p.2)

/-- Legend list of the gas chart (lines 194-199). -/
def gasLegend (suites : List String) (stds : List ℚ) : List String :=
  (suites.zip stds).map (fun p => gasLegendLabel p.1 p.2)

/-- Data handed to the plotting library for one chart: suites in dict key
order with the four parallel value lists. -/
structure ChartData where
  suites : List String
  avgs : List ℚ
  mins : List ℚ
  maxs : List ℚ
  stdSqs : List ℚ

/-- Assemble the chart data from the metric dict and the computed stats. -/
def chartFromStats (m : List (String × ℚ)) (sts : List Stat3) : ChartData :=
  ⟨m.map Prod.fst, m.map Prod.snd, sts.map Stat3.minV, sts.map Stat3.maxV,
    sts.map Stat3.stdSq⟩

/-- Files the pipeline writes: the markdown summary, `proving_times.png` and
`gas_consumption.png`. -/
inductive OutputFile
  | markdown (content : String)
  | provingChart (c : ChartData)
  | gasChart (c : ChartData)

/-- Proving-time chart step (lines 71-141): skipped when `proving_times` is
empty, otherwise the statistics loop runs and may raise. -/
def provingOuts (r : Record) : Except String (List OutputFile) :=
  if r.proving_times = [] then .ok []
  else
    match provingStats r.proving_times r.raw_data with
    | .error e => .error e
    | .ok sts => .ok [OutputFile.provingChart (chartFromStats r.proving_times sts)]

/-- Gas chart step (lines 144-224): skipped when `gas_costs` is empty;
otherwise total. -/
def gasOuts (r : Record) : List OutputFile :=
  if r.gas_costs = [] then []
  else [OutputFile.gasChart (chartFromStats r.gas_costs (gasStats r.gas_costs r.raw_data))]

/-- Body of `generate_plots` after a successful load (lines 58-227): the
markdown summary is written first (line 68), then the proving-time chart,
then the gas chart.  An exception raised by the proving-time statistics
aborts the run before the gas chart (the markdown file is already on disk at
that point; no claim refers to it). -/
def generatePlotsLoaded (r : Record) : Except String (List OutputFile) :=
  match provingOuts r with
  | .error e => .error e
  | .ok ps =>
    .ok (OutputFile.markdown (generate_summary_markdown r) :: (ps ++ gasOuts r))

/-- The function `generate_plots` (lines 41-227) with the filesystem and the
JSON parser as explicit collaborators.  Returns the Python return value
(`False` on the two caught load errors, `True` on completion), the error
messages printed, and the files written. -/
def generate_plots (fs : String → Option String) (parse : String → Option Record)
    (path : String) : Except String (Bool × List String × List OutputFile) :=
  match fs path with
  | none => .ok (false, ["Error: JSON file " ++ path ++ " not found"], [])
  | some content =>
    match parse content with
    | none => .ok (false, ["Error: Invalid JSON in " ++ path], [])
    | some r => (generatePlotsLoaded r).map (fun outs => (true, [], outs))

/-- Usage message printed on a wrong argument count (line 417). -/
def usageMessage : String := "Usage: python3 generate_plots.py <performance_data.json>"

/-- The `__main__` block (lines 415-422): `argv` models `sys.argv[1:]`.
Returns the exit code, the messages printed, and the files written;
`Except.error` models an uncaught exception (nonzero interpreter exit). -/
def mainEntry (fs : String → Option String) (parse : String → Option Record)
    (argv : List String) : Except String (ℕ × List String × List OutputFile) :=
  match argv with
  | [path] =>
    (generate_plots fs parse path).map
      (fun res => (if res.1 then 0 else 1, res.2.1, res.2.2))
  | _ => .ok (1, [usageMessage], [])

/-- Markdown content of an output file, when it is the markdown summary. -/
def markdownOf : OutputFile → Option String
  | .markdown s => some s
  | _ => none

/-- Scenario-A record: one suite in both metrics, no raw data. -/
def recA : Record :=
  { proving_times := [("groth16", 1234 / 1000)]
    gas_costs := [("groth16", 210000)] }

/-- Failing input for the empty raw `proving_times` sequence: the average is
supplied but the per-trial list is present and empty. -/
def recC1 : Record :=
  { proving_times := [("a", 2)]
    raw_data := [("a", ⟨some [], none⟩)] }

/-- Scenario-D record: raw proving times [1.0, 2.0, 3.0] with average 2.0. -/
def recD : Record :=
  { proving_times := [("plonk", 2)]
    raw_data := [("plonk", ⟨some [1, 2, 3], none⟩)] }

/-- Record whose dict key order ("b" before "a") differs from lexicographic
order. -/
def recC9 : Record :=
  { proving_times := [("b", 1), ("a", 1)] }

/-- Record with an empty `proving_times` mapping and a populated
`gas_costs` mapping. -/
def recGasOnly : Record :=
  { gas_costs := [("groth16", 210000)] }

/-- Evaluation of the three-decimal format at the deviation value 1. -/
theorem fmtFixed_three_one : fmtFixed 3 1 = "1.000" := by
  have h : roundHalfEven ((1 : ℚ) * 10 ^ 3) = 1000 := by norm_num [roundHalfEven]
  have hneg : ¬((1 : ℚ) < 0) := by norm_num
  rw [fmtFixed, if_neg hneg, if_neg hneg, h]
  decide

/-- Evaluation of the two-decimal format at the deviation value 1. -/
theorem fmtFixed_two_one : fmtFixed 2 1 = "1.00" := by
  have h : roundHalfEven ((1 : ℚ) * 10 ^ 2) = 100 := by norm_num [roundHalfEven]
  have hneg : ¬((1 : ℚ) < 0) := by norm_num
  rw [fmtFixed, if_neg hneg, if_neg hneg, h]
  decide

/-- A left fold with `min` lands in the seed-plus-list. -/
theorem foldl_min_mem {α : Type} [LinearOrder α] (x : α) (l : List α) :
    l.foldl min x ∈ x :: l := by
  induction l generalizing x with
  | nil => simp
  | cons a t ih =>
    rw [List.foldl_cons]
    rcases List.mem_cons.mp (ih (min x a)) with h1 | h1
    · rw [h1]
      rcases min_choice x a with hc | hc <;> rw [hc] <;> simp
    · exact List.mem_cons_of_mem _ (List.mem_cons_of_mem _ h1)

/-- A left fold with `min` is a lower bound of the seed-plus-list. -/
theorem foldl_min_le {α : Type} [LinearOrder α] (x : α) (l : List α) :
    ∀ y ∈ x :: l, l.foldl min x ≤ y := by
  induction l generalizing x with
  | nil =>
    intro y hy
    simp only [List.mem_cons, List.not_mem_nil, or_false] at hy
    simp [hy]
  | cons a t ih =>
    intro y hy
    rw [List.foldl_cons]
    rcases List.mem_cons.mp hy with h1 | hy1
    · subst h1
      exact le_trans (ih (min y a) (min y a) (List.mem_cons_self _ _)) (min_le_left _ _)
    · rcases List.mem_cons.mp hy1 with h2 | hy2
      · subst h2
        exact le_trans (ih (min x y) (min x y) (List.mem_cons_self _ _)) (min_le_right _ _)
      · exact ih (min x a) y (List.mem_cons_of_mem _ hy2)

/-- A left fold with `max` lands in the seed-plus-list. -/
theorem foldl_max_mem {α : Type} [LinearOrder α] (x : α) (l : List α) :
    l.foldl max x ∈ x :: l := by
  induction l generalizing x with
  | nil => simp
  | cons a t ih =>
    rw [List.foldl_cons]
    rcases List.mem_cons.mp (ih (max x a)) with h1 | h1
    · rw [h1]
      rcases max_choice x a with hc | hc <;> rw [hc] <;> simp
    · exact List.mem_cons_of_mem _ (List.mem_cons_of_mem _ h1)

/-- A left fold with `max` is an upper bound of the seed-plus-list. -/
theorem le_foldl_max {α : Type} [LinearOrder α] (x : α) (l : List α) :
    ∀ y ∈ x :: l, y ≤ l.foldl max x := by
  induction l generalizing x with
  | nil =>
    intro y hy
    simp only [List.mem_cons, List.not_mem_nil, or_false] at hy
    simp [hy]
  | cons a t ih =>
    intro y hy
    rw [List.foldl_cons]
    rcases List.mem_cons.mp hy with h1 | hy1
    · subst h1
      exact le_trans (le_max_left _ _) (ih (max y a) (max y a) (List.mem_cons_self _ _))
    · rcases List.mem_cons.mp hy1 with h2 | hy2
      · subst h2
        exact le_trans (le_max_right _ _) (ih (max x y) (max x y) (List.mem_cons_self _ _))
      · exact ih (max x a) y (List.mem_cons_of_mem _ hy2)

/-- Membership of a key in the dict model coincides with a successful lookup. -/
theorem dictLookup_isSome_iff {β : Type} (s : String) (l : List (String × β)) :
    (dictLookup s l).isSome ↔ s ∈ l.map Prod.fst := by
  induction l with
  | nil => simp [dictLookup]
  | cons p t ih =>
    by_cases h : s = p.1
    · simp [dictLookup, h]
    · simp only [dictLookup]
      rw [if_neg h]
      simp [ih, h]

/-- C1 (code bug): on a suite whose raw `proving_times` sequence is present
and empty, the proving-time statistics loop calls `min([])`, raising
`ValueError` (line 83 has no emptiness guard, unlike the gas branch on
line 156); the exception propagates out of `generate_plots` and kills the
process, instead of the degenerate min = max = average, stddev = 0 the spec
promises. -/
theorem empty_raw_proving_times_raises :
    provingStats recC1.proving_times recC1.raw_data =
      .error "ValueError: min() arg is an empty sequence" ∧
    generatePlotsLoaded recC1 = .error "ValueError: min() arg is an empty sequence" ∧
    mainEntry (fun _ => some "data") (fun _ => some recC1) ["bench.json"] =
      .error "ValueError: min() arg is an empty sequence" :=
  ⟨rfl, rfl, rfl⟩

/-- C8: the markdown rendering is deterministic: any two successful runs of
the loaded pipeline on the same record yield byte-identical markdown
output. -/
theorem markdown_render_deterministic (r : Record) (o1 o2 : List OutputFile)
    (h1 : generatePlotsLoaded r = .ok o1) (h2 : generatePlotsLoaded r = .ok o2) :
    o1.filterMap markdownOf = o2.filterMap markdownOf := by
  rw [h1] at h2
  rw [Except.ok.inj h2]

/-- Witness for C8 at the scenario-A record. -/
theorem markdown_render_deterministic_witness :
    ∃ o : List OutputFile, generatePlotsLoaded recA = .ok o ∧
      o.filterMap markdownOf = o.filterMap markdownOf :=
  ⟨_, rfl, markdown_render_deterministic recA _ _ rfl rfl⟩

/-- C4: a missing input file or malformed content prints the corresponding
error message, exits 1 and writes nothing; a wrong argument count prints the
usage message and exits 1 without consulting the filesystem; a successful
load whose renders all complete exits 0. -/
theorem cli_exit_codes (fs fs2 : String → Option String)
    (parse parse2 : String → Option Record) (path : String) (argv : List String) :
    (fs path = none →
      mainEntry fs parse [path] =
        .ok (1, ["Error: JSON file " ++ path ++ " not found"], [])) ∧
    (∀ c, fs path = some c → parse c = none →
      mainEntry fs parse [path] =
        .ok (1, ["Error: Invalid JSON in " ++ path], [])) ∧
    (argv.length ≠ 1 →
      mainEntry fs parse argv = .ok (1, [usageMessage], []) ∧
      mainEntry fs parse argv = mainEntry fs2 parse2 argv) ∧
    (∀ c r outs, fs path = some c → parse c = some r →
      generatePlotsLoaded r = .ok outs →
      mainEntry fs parse [path] = .ok (0, [], outs)) := by
  refine ⟨?_, ?_, ?_, ?_⟩
  · intro h
    simp [mainEntry, generate_plots, h, Except.map]
  · intro c h1 h2
    simp [mainEntry, generate_plots, h1, h2, Except.map]
  · intro h
    rcases argv with _ | ⟨a, _ | ⟨b, t⟩⟩
    · exact ⟨rfl, rfl⟩
    · simp at h
    · exact ⟨rfl, rfl⟩
  · intro c r outs h1 h2 h3
    simp [mainEntry, generate_plots, h1, h2, h3, Except.map]

/-- Witness for C4: the three failure paths and the success path at concrete
inputs. -/
theorem cli_exit_codes_witness :
    mainEntry (fun _ => none) (fun _ => none) ["missing.json"] =
      .ok (1, ["Error: JSON file " ++ "missing.json" ++ " not found"], []) ∧
    mainEntry (fun _ => some "bad") (fun _ => none) ["bad.json"] =
      .ok (1, ["Error: Invalid JSON in " ++ "bad.json"], []) ∧
    mainEntry (fun _ => none) (fun _ => none) [] = .ok (1, [usageMessage], []) ∧
    ∃ outs, generatePlotsLoaded recA = .ok outs ∧
      mainEntry (fun _ => some "g") (fun _ => some recA) ["good.json"] = .ok (0, [], outs) :=
  ⟨(cli_exit_codes (fun _ => none) (fun _ => none) (fun _ => none) (fun _ => none)
      "missing.json" []).1 rfl,
   (cli_exit_codes (fun _ => some "bad") (fun _ => none) (fun _ => none) (fun _ => none)
      "bad.json" []).2.1 "bad" rfl rfl,
   ((cli_exit_codes (fun _ => none) (fun _ => none) (fun _ => none) (fun _ => none)
      "x" []).2.2.1 (by decide)).1,
   ⟨_, rfl, (cli_exit_codes (fun _ => some "g") (fun _ => none) (fun _ => some recA)
      (fun _ => none) "good.json" []).2.2.2 "g" recA _ rfl rfl rfl⟩⟩

/-- Unfolding of the proving-time statistics on a present raw sequence. -/
theorem provingSuiteStat_raw (avg : ℚ) (e : RawEntry) (x : ℚ) (t : List ℚ)
    (hp : e.proving_times = some (x :: t)) :
    provingSuiteStat avg (some e) =
      .ok ⟨t.foldl min x, t.foldl max x,
        if 1 < (x :: t).length then sampleVar (x :: t) else 0⟩ := by
  simp only [provingSuiteStat, hp]
  rfl

/-- Unfolding of the gas statistics on a present non-empty raw sequence. -/
theorem gasSuiteStat_raw (avg : ℚ) (e : RawEntry) (y : ℚ) (u : List ℚ)
    (hg : e.gas_costs = some (y :: u)) :
    gasSuiteStat avg (some e) =
      ⟨u.foldl min y, u.foldl max y,
        if 1 < (y :: u).length then sampleVar (y :: u) else 0⟩ := by
  simp only [gasSuiteStat, hg]

/-- C2: with a present non-empty raw sequence the computed min and max are
the sequence's extremes, and the deviation is the sample standard deviation
(n-1 denominator) for n ≥ 2 and 0 for n = 1; concretely, raw proving times
[1, 2, 3] with average 2 give min 1, max 3, σ = 1 (since 1 ≥ 0 and 1² is the
sample variance), and the proving-time legend entry reads "plonk: σ=1.000s". -/
theorem nonempty_raw_stats (avg : ℚ) (e : RawEntry) (xs ys : List ℚ)
    (hp : e.proving_times = some xs) (hxs : xs ≠ [])
    (hg : e.gas_costs = some ys) (hys : ys ≠ []) :
    (∃ st : Stat3, provingSuiteStat avg (some e) = .ok st ∧
      st.minV ∈ xs ∧ (∀ y ∈ xs, st.minV ≤ y) ∧
      st.maxV ∈ xs ∧ (∀ y ∈ xs, y ≤ st.maxV) ∧
      (2 ≤ xs.length → st.stdSq = sampleVar xs) ∧
      (xs.length = 1 → st.stdSq = 0)) ∧
    ((gasSuiteStat avg (some e)).minV ∈ ys ∧
      (∀ y ∈ ys, (gasSuiteStat avg (some e)).minV ≤ y) ∧
      (gasSuiteStat avg (some e)).maxV ∈ ys ∧
      (∀ y ∈ ys, y ≤ (gasSuiteStat avg (some e)).maxV) ∧
      (2 ≤ ys.length → (gasSuiteStat avg (some e)).stdSq = sampleVar ys) ∧
      (ys.length = 1 → (gasSuiteStat avg (some e)).stdSq = 0)) ∧
    (provingSuiteStat 2 (some ⟨some [1, 2, 3], none⟩) = .ok ⟨1, 3, sampleVar [1, 2, 3]⟩ ∧
      sampleVar [1, 2, 3] = 1 ∧
      provingLegendLabel "plonk" 1 = "plonk: σ=1.000s") := by
  refine ⟨?_, ?_, ?_, ?_, ?_⟩
  · cases xs with
    | nil => exact absurd rfl hxs
    | cons x t =>
      rw [provingSuiteStat_raw avg e x t hp]
      refine ⟨_, rfl, foldl_min_mem x t, foldl_min_le x t,
        foldl_max_mem x t, le_foldl_max x t, ?_, ?_⟩
      · intro hlen
        have hc : 1 < (x :: t).length := by
          simp only [List.length_cons] at hlen ⊢
          omega
        show (if 1 < (x :: t).length then sampleVar (x :: t) else 0) = sampleVar (x :: t)
        rw [if_pos hc]
      · intro hlen
        have hc : ¬ 1 < (x :: t).length := by
          simp only [List.length_cons] at hlen ⊢
          omega
        show (if 1 < (x :: t).length then sampleVar (x :: t) else 0) = 0
        rw [if_neg hc]
  · cases ys with
    | nil => exact absurd rfl hys
    | cons y u =>
      rw [gasSuiteStat_raw avg e y u hg]
      refine ⟨foldl_min_mem y u, foldl_min_le y u, foldl_max_mem y u, le_foldl_max y u, ?_, ?_⟩
      · intro hlen
        have hc : 1 < (y :: u).length := by
          simp only [List.length_cons] at hlen ⊢
          omega
        show (if 1 < (y :: u).length then sampleVar (y :: u) else 0) = sampleVar (y :: u)
        rw [if_pos hc]
      · intro hlen
        have hc : ¬ 1 < (y :: u).length := by
          simp only [List.length_cons] at hlen ⊢
          omega
        show (if 1 < (y :: u).length then sampleVar (y :: u) else 0) = 0
        rw [if_neg hc]
  · rw [provingSuiteStat_raw 2 ⟨some [1, 2, 3], none⟩ 1 [2, 3] rfl]
    have hmin : ([2, 3] : List ℚ).foldl min 1 = 1 := by
      simp only [List.foldl]
      norm_num [min_def]
    have hmax : ([2, 3] : List ℚ).foldl max 1 = 3 := by
      simp only [List.foldl]
      norm_num [max_def]
    rw [hmin, hmax, if_pos (by simp : 1 < ([(1 : ℚ), 2, 3]).length)]
  · simp [sampleVar, listSum]
    norm_num
  · have h1 : (0 : ℚ) < 1 := by norm_num
    simp only [provingLegendLabel, if_pos h1, fmtFixed_three_one]
    decide

/-- Witness for C2 at the scenario-D data. -/
theorem nonempty_raw_stats_witness :
    ∃ st : Stat3, provingSuiteStat 2 (some ⟨some [1, 2, 3], some [5]⟩) = .ok st ∧
      st.minV ∈ [(1 : ℚ), 2, 3] ∧ (∀ y ∈ [(1 : ℚ), 2, 3], st.minV ≤ y) ∧
      st.maxV ∈ [(1 : ℚ), 2, 3] ∧ (∀ y ∈ [(1 : ℚ), 2, 3], y ≤ st.maxV) ∧
      (2 ≤ ([(1 : ℚ), 2, 3]).length → st.stdSq = sampleVar [1, 2, 3]) ∧
      (([(1 : ℚ), 2, 3]).length = 1 → st.stdSq = 0) :=
  (nonempty_raw_stats 2 ⟨some [1, 2, 3], some [5]⟩ [1, 2, 3] [5] rfl
    (by simp) rfl (by simp)).1

/-- C3 counterexample: a gas-cost deviation of exactly 1 is rendered in the
gas legend as "σ=1.00" (two decimal places), not as the integer "σ=1" the
claim describes. -/
theorem gas_legend_two_decimals :
    gasLegendLabel "plonk" 1 = "plonk: σ=1.00" ∧
    gasLegendLabel "plonk" 1 ≠ "plonk: σ=1" := by
  have h1 : (0 : ℚ) < 1 := by norm_num
  simp only [gasLegendLabel, if_pos h1, fmtFixed_two_one]
  exact ⟨by decide, by decide⟩

/-- C3 (amended): a nonzero deviation is formatted with 3 decimal places and
an "s" suffix in the proving-time legend and with 2 decimal places (not as an
integer) in the gas legend; a zero deviation yields "single measurement" and
"deterministic" respectively. -/
theorem legend_deviation_formatting (suite : String) (std : ℚ) :
    (0 < std →
      provingLegendLabel suite std = suite ++ ": σ=" ++ fmtFixed 3 std ++ "s" ∧
      gasLegendLabel suite std = suite ++ ": σ=" ++ fmtFixed 2 std) ∧
    (std = 0 →
      provingLegendLabel suite std = suite ++ ": single measurement" ∧
      gasLegendLabel suite std = suite ++ ": deterministic") ∧
    fmtFixed 3 (1 : ℚ) = "1.000" ∧ fmtFixed 2 (1 : ℚ) = "1.00" := by
  refine ⟨?_, ?_, fmtFixed_three_one, fmtFixed_two_one⟩
  · intro h
    exact ⟨by simp [provingLegendLabel, h], by simp [gasLegendLabel, h]⟩
  · intro h
    subst h
    exact ⟨by simp [provingLegendLabel], by simp [gasLegendLabel]⟩

/-- Witness for the amended C3 at a positive and a zero deviation. -/
theorem legend_deviation_formatting_witness :
    provingLegendLabel "a" 1 = "a" ++ ": σ=" ++ fmtFixed 3 1 ++ "s" ∧
    gasLegendLabel "a" 0 = "a" ++ ": deterministic" :=
  ⟨((legend_deviation_formatting "a" 1).1 (by norm_num)).1,
   ((legend_deviation_formatting "a" 0).2.1 rfl).2⟩

/-- C5: the markdown summary has exactly one subsection per suite of the
deduplicated union of the two metric key sets, in lexicographic order, and
each subsection carries the proving-time line (3 decimals, "s" suffix) iff
the suite is a `proving_times` key and the gas-cost line (thousands-grouped
integer) iff it is a `gas_costs` key. -/
theorem markdown_sections (r : Record) :
    (mdSuites r).Nodup ∧
    (mdSuites r).Sorted (· ≤ ·) ∧
    (∀ s, s ∈ mdSuites r ↔
      (s ∈ r.proving_times.map Prod.fst ∨ s ∈ r.gas_costs.map Prod.fst)) ∧
    generate_summary_markdown r =
      mdHeader r ++ String.join ((mdSuites r).map (mdSection r)) ∧
    (∀ s, ((dictLookup s r.proving_times).isSome ↔ s ∈ r.proving_times.map Prod.fst) ∧
      ((dictLookup s r.gas_costs).isSome ↔ s ∈ r.gas_costs.map Prod.fst) ∧
      (∀ t, dictLookup s r.proving_times = some t →
        mdSection r s = "\n### " ++ s ++ "\n\n" ++
          ("- **Proving Time:** " ++ fmtFixed 3 t ++ "s\n") ++
          mdGasPart (dictLookup s r.gas_costs)) ∧
      (dictLookup s r.proving_times = none →
        mdSection r s = "\n### " ++ s ++ "\n\n" ++ mdGasPart (dictLookup s r.gas_costs)) ∧
      (∀ g, dictLookup s r.gas_costs = some g →
        mdGasPart (dictLookup s r.gas_costs) =
          "- **Gas Cost:** " ++ commaFmt (ratTrunc g) ++ " gas\n") ∧
      (dictLookup s r.gas_costs = none → mdGasPart (dictLookup s r.gas_costs) = "")) := by
  refine ⟨?_, ?_, ?_, rfl, ?_⟩
  · exact (List.perm_insertionSort _ _).nodup_iff.mpr (List.nodup_dedup _)
  · exact List.sorted_insertionSort _ _
  · intro s
    simp [mdSuites, List.mem_insertionSort, List.mem_dedup, List.mem_append]
  · intro s
    refine ⟨dictLookup_isSome_iff s _, dictLookup_isSome_iff s _, ?_, ?_, ?_, ?_⟩
    · intro t ht
      simp only [mdSection, ht, mdPtPart]
    · intro ht
      simp only [mdSection, ht, mdPtPart]
      simp
    · intro g hg
      simp only [hg, mdGasPart]
    · intro hg
      simp only [hg, mdGasPart]

/-- Witness for C5 at the scenario-A record and its suite. -/
theorem markdown_sections_witness :
    mdSection recA "groth16" = "\n### " ++ "groth16" ++ "\n\n" ++
      ("- **Proving Time:** " ++ fmtFixed 3 (1234 / 1000) ++ "s\n") ++
      mdGasPart (dictLookup "groth16" recA.gas_costs) :=
  (((markdown_sections recA).2.2.2.2 "groth16").2.2.1) (1234 / 1000) rfl

/-- Shape of a successful loaded run: the markdown output comes first,
then an optional proving chart, then the gas output list. -/
theorem generatePlotsLoaded_ok_shape (r : Record) (outs : List OutputFile)
    (h : generatePlotsLoaded r = .ok outs) :
    ∃ ps, provingOuts r = .ok ps ∧
      outs = OutputFile.markdown (generate_summary_markdown r) :: (ps ++ gasOuts r) ∧
      (ps = [] ∨ ∃ sts, provingStats r.proving_times r.raw_data = .ok sts ∧
        ps = [OutputFile.provingChart (chartFromStats r.proving_times sts)]) := by
  cases hps : provingOuts r with
  | error e =>
    simp only [generatePlotsLoaded, hps] at h
    exact Except.noConfusion h
  | ok ps =>
    simp only [generatePlotsLoaded, hps] at h
    refine ⟨ps, rfl, (Except.ok.inj h).symm, ?_⟩
    by_cases hpt : r.proving_times = []
    · left
      rw [provingOuts, if_pos hpt] at hps
      exact (Except.ok.inj hps).symm
    · right
      rw [provingOuts, if_neg hpt] at hps
      cases hs : provingStats r.proving_times r.raw_data with
      | error e =>
        rw [hs] at hps
        exact Except.noConfusion hps
      | ok sts =>
        rw [hs] at hps
        exact ⟨sts, rfl, (Except.ok.inj hps).symm⟩

/-- C6: an empty top-level metric mapping makes the pipeline skip that chart
with no error, and the run exits 0 provided the load succeeded and every
other attempted render completed. -/
theorem empty_metric_skips_chart (r : Record) :
    (r.proving_times = [] →
      ∃ outs, generatePlotsLoaded r = .ok outs ∧
        (∀ c, OutputFile.provingChart c ∉ outs) ∧
        mainEntry (fun _ => some "j") (fun _ => some r) ["p"] = .ok (0, [], outs)) ∧
    (r.gas_costs = [] → ∀ outs, generatePlotsLoaded r = .ok outs →
      (∀ c, OutputFile.gasChart c ∉ outs) ∧
      mainEntry (fun _ => some "j") (fun _ => some r) ["p"] = .ok (0, [], outs)) := by
  constructor
  · intro h
    have hp : provingOuts r = .ok [] := by rw [provingOuts, if_pos h]
    have hg : generatePlotsLoaded r =
        .ok (OutputFile.markdown (generate_summary_markdown r) :: ([] ++ gasOuts r)) := by
      simp only [generatePlotsLoaded, hp]
    refine ⟨_, hg, ?_, ?_⟩
    · intro c hc
      by_cases hgc : r.gas_costs = [] <;> simp [gasOuts, hgc] at hc
    · simp [mainEntry, generate_plots, hg, Except.map]
  · intro h outs houts
    obtain ⟨ps, hps, hsh, hcases⟩ := generatePlotsLoaded_ok_shape r outs houts
    have hgas : gasOuts r = [] := by rw [gasOuts, if_pos h]
    constructor
    · intro c hc
      subst hsh
      rcases hcases with rfl | ⟨sts, hs, rfl⟩ <;> simp [hgas] at hc
    · simp [mainEntry, generate_plots, houts, Except.map]

/-- Witness for C6: empty proving_times on one side, empty gas_costs on the
other, both at concrete records. -/
theorem empty_metric_skips_chart_witness :
    (∃ outs, generatePlotsLoaded recGasOnly = .ok outs ∧
        (∀ c, OutputFile.provingChart c ∉ outs) ∧
        mainEntry (fun _ => some "j") (fun _ => some recGasOnly) ["p"] = .ok (0, [], outs)) :=
  (empty_metric_skips_chart recGasOnly).1 rfl

/-- C7: the set of suites rendered in each chart is exactly the key set of
that metric's top-level mapping; an entry present only in `raw_data` adds no
suite, and a suite missing from `raw_data` stays, its statistics degenerating
to the supplied average. -/
theorem chart_suites_exactly_metric_keys (r : Record) (outs : List OutputFile)
    (h : generatePlotsLoaded r = .ok outs) :
    (∀ c, OutputFile.provingChart c ∈ outs → c.suites = r.proving_times.map Prod.fst) ∧
    (∀ c, OutputFile.gasChart c ∈ outs → c.suites = r.gas_costs.map Prod.fst) ∧
    (∀ avg, provingSuiteStat avg none = .ok ⟨avg, avg, 0⟩) ∧
    (∀ avg, gasSuiteStat avg none = ⟨avg, avg, 0⟩) := by
  obtain ⟨ps, hps, hsh, hcases⟩ := generatePlotsLoaded_ok_shape r outs h
  subst hsh
  refine ⟨?_, ?_, fun avg => rfl, fun avg => rfl⟩
  · intro c hc
    rcases hcases with rfl | ⟨sts, hs, rfl⟩
    · by_cases hgc : r.gas_costs = [] <;> simp [gasOuts, hgc] at hc
    · by_cases hgc : r.gas_costs = []
      · simp [gasOuts, hgc] at hc
        subst hc
        rfl
      · simp [gasOuts, hgc] at hc
        subst hc
        rfl
  · intro c hc
    rcases hcases with rfl | ⟨sts, hs, rfl⟩
    · by_cases hgc : r.gas_costs = []
      · simp [gasOuts, hgc] at hc
      · simp [gasOuts, hgc] at hc
        subst hc
        rfl
    · by_cases hgc : r.gas_costs = []
      · simp [gasOuts, hgc] at hc
      · simp [gasOuts, hgc] at hc
        subst hc
        rfl

/-- Witness for C7 at the scenario-A record. -/
theorem chart_suites_exactly_metric_keys_witness :
    ∃ outs, generatePlotsLoaded recA = .ok outs ∧
      ∀ c, OutputFile.provingChart c ∈ outs → c.suites = recA.proving_times.map Prod.fst :=
  ⟨_, rfl, (chart_suites_exactly_metric_keys recA _ rfl).1⟩

/-- C9: chart suites appear in dict key (insertion) order, not sorted; on a
record whose keys are inserted as "b" then "a" the proving chart renders
["b", "a"] while the markdown suite list is ["a", "b"]. -/
theorem chart_suites_in_insertion_order (r : Record) (outs : List OutputFile)
    (h : generatePlotsLoaded r = .ok outs) :
    (∀ c, OutputFile.provingChart c ∈ outs → c.suites = r.proving_times.map Prod.fst) ∧
    (∃ outs2 c, generatePlotsLoaded recC9 = .ok outs2 ∧
      OutputFile.provingChart c ∈ outs2 ∧ c.suites = ["b", "a"] ∧
      mdSuites recC9 = ["a", "b"] ∧ c.suites ≠ mdSuites recC9) := by
  constructor
  · obtain ⟨ps, hps, hsh, hcases⟩ := generatePlotsLoaded_ok_shape r outs h
    subst hsh
    intro c hc
    rcases hcases with rfl | ⟨sts, hs, rfl⟩
    · by_cases hgc : r.gas_costs = [] <;> simp [gasOuts, hgc] at hc
    · by_cases hgc : r.gas_costs = []
      · simp [gasOuts, hgc] at hc
        subst hc
        rfl
      · simp [gasOuts, hgc] at hc
        subst hc
        rfl
  · have hmd : mdSuites recC9 = ["a", "b"] := by
      have hd : (recC9.proving_times.map Prod.fst ++ recC9.gas_costs.map Prod.fst).dedup =
          ["b", "a"] := by decide
      simp only [mdSuites]
      rw [hd]
      simp [List.insertionSort, List.orderedInsert]
      decide
    refine ⟨_, chartFromStats recC9.proving_times [⟨1, 1, 0⟩, ⟨1, 1, 0⟩], rfl, ?_, rfl, hmd, ?_⟩
    · exact List.mem_cons_of_mem _ (List.mem_cons_self _ _)
    · rw [hmd]
      decide

/-- Truncation toward zero of a nonnegative number with fractional part
below one keeps the integer part, even when the fraction is at least one
half (no rounding). -/
theorem ratTrunc_intAdd (n : ℤ) (x : ℚ) (hn : 0 ≤ n) (h0 : 0 ≤ x) (h1 : x < 1) :
    ratTrunc ((n : ℚ) + x) = n := by
  have hq : ¬((n : ℚ) + x < 0) := by
    push_neg
    have : (0 : ℚ) ≤ (n : ℚ) := by exact_mod_cast hn
    linarith
  rw [ratTrunc, if_neg hq, Int.floor_int_add]
  have hx : ⌊x⌋ = 0 := Int.floor_eq_zero_iff.mpr ⟨h0, h1⟩
  rw [hx, add_zero]

/-- C10: the markdown gas-cost line renders the value truncated toward zero
(not rounded) and thousands-grouped; 210000.9 renders as "210,000 gas". -/
theorem md_gas_line_truncates (r : Record) (s : String) (g : ℚ)
    (h : dictLookup s r.gas_costs = some g) :
    mdGasPart (dictLookup s r.gas_costs) =
      "- **Gas Cost:** " ++ commaFmt (ratTrunc g) ++ " gas\n" ∧
    (∀ (n : ℤ) (x : ℚ), 0 ≤ n → 0 ≤ x → x < 1 → ratTrunc ((n : ℚ) + x) = n) ∧
    mdGasPart (some ((210000 : ℚ) + 9 / 10)) = "- **Gas Cost:** 210,000 gas\n" := by
  refine ⟨by rw [h]; rfl, fun n x hn h0 h1 => ratTrunc_intAdd n x hn h0 h1, ?_⟩
  have hcast : ((210000 : ℤ) : ℚ) = 210000 := by norm_num
  have ht := ratTrunc_intAdd 210000 (9 / 10) (by norm_num) (by norm_num) (by norm_num)
  rw [hcast] at ht
  show "- **Gas Cost:** " ++ commaFmt (ratTrunc ((210000 : ℚ) + 9 / 10)) ++ " gas\n" = _
  rw [ht]
  decide

/-- Witness for C10 at the scenario-A record. -/
theorem md_gas_line_truncates_witness :
    mdGasPart (dictLookup "groth16" recA.gas_costs) =
      "- **Gas Cost:** " ++ commaFmt (ratTrunc 210000) ++ " gas\n" :=
  (md_gas_line_truncates recA "groth16" 210000 rfl).1

/-- Witness for C9 at the record with insertion order "b", "a". -/
theorem chart_suites_in_insertion_order_witness :
    ∃ outs2 c, generatePlotsLoaded recC9 = .ok outs2 ∧
      OutputFile.provingChart c ∈ outs2 ∧ c.suites = ["b", "a"] ∧
      mdSuites recC9 = ["a", "b"] ∧ c.suites ≠ mdSuites recC9 :=
  (chart_suites_in_insertion_order recC9 _ rfl).2
